import Mathlib

/-!
Verification of the unary elementwise kernel machinery of `wgpu-tensors`
(`src/wgpu-tensors/src/kernel/map/unary.rs`), over a shallow embedding.

The repository ships only `kernel/map/unary.rs`; its collaborators
(`KernelBindingBuilder`, `TaskPartition`, `contiguous_strides`, `Tensor`,
`Gpu::run_kernel`) are declared elsewhere in the crate and are modelled here
from the specification, each marked `Modelled from the spec:`.
Machine integers (`usize`, `isize`) are modelled as `Nat` / `Int`; the packed
32-bit boolean words are `Nat` with bit operations.
-/

namespace WgpuTensors

/-- Modelled from the spec: the `Element` / `Encode` type tags (crate module
`element`, outside src). A runtime value standing for one scalar element type:
its name and its packing factor `NUM_PACKED` (1 for unpacked types). -/
structure ElementType where
  name : String
  numPacked : Nat
deriving DecidableEq

/-- Modelled from the spec: booleans are packed, multiple flags sharing one
physical 32-bit word, so `<bool as Encode>::NUM_PACKED` is 32. -/
def boolNumPacked : Nat := 32

def boolElem : ElementType := ⟨"bool", boolNumPacked⟩

def i32Elem : ElementType := ⟨"i32", 1⟩

def f32Elem : ElementType := ⟨"f32", 1⟩

/-- Modelled from the spec: binding access modes (read-only / read-write). -/
inductive AccessMode
  | readOnly
  | readWrite
deriving DecidableEq

/-- Modelled from the spec: parameter kinds — scalar integer or D-length
(shape-sized) integer vector. -/
inductive ParamKind
  | int
  | shaped
deriving DecidableEq

/-- Modelled from the spec: one named buffer-binding descriptor of a
`KernelDeclaration` (crate module `kernel/binding`, outside src). -/
structure KernelBindingDeclaration where
  name : String
  access : AccessMode
  elem : ElementType
deriving DecidableEq

/-- Mirrors `KernelBindingDeclaration::read_write::<R>(name)`. -/
def KernelBindingDeclaration.read_write (R : ElementType) (name : String) :
    KernelBindingDeclaration :=
  ⟨name, AccessMode.readWrite, R⟩

/-- Mirrors `KernelBindingDeclaration::read_only::<A>(name)`. -/
def KernelBindingDeclaration.read_only (A : ElementType) (name : String) :
    KernelBindingDeclaration :=
  ⟨name, AccessMode.readOnly, A⟩

/-- Modelled from the spec: one named parameter descriptor. -/
structure KernelParameterDeclaration where
  name : String
  kind : ParamKind
deriving DecidableEq

/-- Mirrors `KernelParameterDeclaration::shaped(name)`. -/
def KernelParameterDeclaration.shaped (name : String) : KernelParameterDeclaration :=
  ⟨name, ParamKind.shaped⟩

/-- Mirrors `KernelParameterDeclaration::int(name)`. -/
def KernelParameterDeclaration.int (name : String) : KernelParameterDeclaration :=
  ⟨name, ParamKind.int⟩

/-- Modelled from the spec: a kernel declaration — ordered binding and
parameter descriptor lists, pure static data. -/
structure KernelDeclaration where
  bindings : List KernelBindingDeclaration
  parameters : List KernelParameterDeclaration
deriving DecidableEq

/-- Modelled from the spec: the error taxonomy of `error::KernelError`
(outside src): unknown name, element-type/parameter-kind mismatch, access
(aliasing) violation, allocation failure, dispatch failure. -/
inductive KernelError
  | unknownBinding (name : String)
  | typeMismatch (name : String)
  | accessViolation (name : String)
  | allocationFailure
  | dispatchFailure
deriving DecidableEq

/-- Modelled from the spec: a strider — shape, strides, offset — the affine
map from logical multi-index to linear buffer position (crate module
`tensor/strider`, outside src). -/
structure Strider where
  shape : List Nat
  strides : List Int
  offset : Nat
deriving DecidableEq

/-- Modelled from the spec: `contiguous_strides(shape)` from `tensor/strider`
(outside src) — canonical row-major strides, `strides[k] = product(shape[k+1..D])`. -/
def contiguous_strides : List Nat → List Int
  | [] => []
  | _ :: rest => ((rest.prod : Nat) : Int) :: contiguous_strides rest

/-- Modelled from the spec: a tensor — a strider view plus element type over a
GPU buffer (identified by `bufferId`) holding the element data. Element
contents are modelled as integers. -/
structure Tensor where
  strider : Strider
  elem : ElementType
  bufferId : Nat
  data : List Int
deriving DecidableEq

/-- Number of logical elements covered by the tensor's shape. -/
def Tensor.numel (t : Tensor) : Nat := t.strider.shape.prod

/-- Modelled from the spec: a parameter value on the wire — a single integer
or a D-length integer vector. -/
inductive ParamValue
  | int (v : Int)
  | shaped (v : List Int)
deriving DecidableEq

/-- Metadata recorded by the builder for one registered binding. -/
structure BoundBinding where
  name : String
  strider : Strider
  elem : ElementType
  access : AccessMode
  bufferId : Nat
deriving DecidableEq

/-- Modelled from the spec: `KernelBindingBuilder` (crate module
`kernel/binding`, outside src) — the mutable accumulator of one dispatch's
bindings and parameters, validating against the declaration. `dim` is the
compile-time dimensionality `D` of the call. -/
structure KernelBindingBuilder where
  decl : KernelDeclaration
  dim : Nat
  bindings : List BoundBinding
  parameters : List (String × ParamValue)
deriving DecidableEq

/-- A fresh builder for one dispatch. -/
def KernelBindingBuilder.new (decl : KernelDeclaration) (dim : Nat) :
    KernelBindingBuilder :=
  ⟨decl, dim, [], []⟩

/-- Modelled from the spec: `add_binding(name, tensor)` — validates that the
name exists in the declaration, that the tensor's element type matches the
declared type, and that read-write bindings are exclusively reachable (no
other binding of the same dispatch aliases the same buffer). Only the
tensor's metadata is recorded; its contents are never read. -/
def KernelBindingBuilder.add_binding (b : KernelBindingBuilder) (name : String)
    (t : Tensor) : Except KernelError KernelBindingBuilder :=
  match b.decl.bindings.find? (fun d => d.name == name) with
  | none => .error (.unknownBinding name)
  | some d =>
    if d.elem = t.elem then
      if b.bindings.any (fun e =>
          e.bufferId == t.bufferId &&
            (e.access == AccessMode.readWrite || d.access == AccessMode.readWrite)) then
        .error (.accessViolation name)
      else
        .ok { b with bindings := b.bindings ++ [⟨name, t.strider, t.elem, d.access, t.bufferId⟩] }
    else
      .error (.typeMismatch name)

/-- Modelled from the spec: `add_parameter(name, value)` — validates that the
name exists in the declaration and that the declared kind (scalar vs D-length
vector) matches the supplied value's shape. -/
def KernelBindingBuilder.add_parameter (b : KernelBindingBuilder) (name : String)
    (v : ParamValue) : Except KernelError KernelBindingBuilder :=
  match b.decl.parameters.find? (fun d => d.name == name) with
  | none => .error (.unknownBinding name)
  | some d =>
    match d.kind, v with
    | ParamKind.int, ParamValue.int _ =>
      .ok { b with parameters := b.parameters ++ [(name, v)] }
    | ParamKind.shaped, ParamValue.shaped l =>
      if l.length = b.dim then
        .ok { b with parameters := b.parameters ++ [(name, v)] }
      else
        .error (.typeMismatch name)
    | _, _ => .error (.typeMismatch name)

/-- `UnarySignature::DECLARATION` (unary.rs, lines 36-49): a read-write
`result` binding of type `R`, a read-only `operand` binding of type `A`, and
the six parameters in declaration order. -/
def UnarySignature.DECLARATION (R A : ElementType) : KernelDeclaration where
  bindings := [
    KernelBindingDeclaration.read_write R "result",
    KernelBindingDeclaration.read_only A "operand"]
  parameters := [
    KernelParameterDeclaration.shaped "op_strides",
    KernelParameterDeclaration.shaped "op_shape",
    KernelParameterDeclaration.int "result_offset",
    KernelParameterDeclaration.shaped "result_strides",
    KernelParameterDeclaration.int "operand_offset",
    KernelParameterDeclaration.shaped "operand_strides"]

/-- `UnarySignature::build_bind_group` (unary.rs, lines 53-73): register the
two bindings, then the six parameters, in source order, short-circuiting on
the first error (the `?` operator). -/
def UnarySignature.build_bind_group (result operand : Tensor)
    (builder : KernelBindingBuilder) : Except KernelError KernelBindingBuilder := do
  let b ← builder.add_binding "result" result
  let b ← b.add_binding "operand" operand
  let result_strider := result.strider
  let op_shape := result_strider.shape
  let b ← b.add_parameter "op_strides" (ParamValue.shaped (contiguous_strides op_shape))
  let b ← b.add_parameter "op_shape" (ParamValue.shaped (op_shape.map Int.ofNat))
  let b ← b.add_parameter "result_offset" (ParamValue.int result_strider.offset)
  let b ← b.add_parameter "result_strides" (ParamValue.shaped result_strider.strides)
  let operand_strider := operand.strider
  let b ← b.add_parameter "operand_offset" (ParamValue.int operand_strider.offset)
  let b ← b.add_parameter "operand_strides" (ParamValue.shaped operand_strider.strides)
  return b

/-- Modelled from the spec: `TaskPartition::for_result` (crate module
`kernel`, outside src) — the number of elementwise (or encoded-unit)
invocations required to cover the output shape: the product of the output
shape's dimensions, divided rounding up by the operation's index step. -/
def TaskPartition.for_result (shape : List Nat) (index_step : Nat) : Nat :=
  (shape.prod + index_step - 1) / index_step

/-- `UnarySignature::task_partition` (unary.rs, lines 75-77): sized from the
result tensor's shape. The index step comes from the `Map` being dispatched. -/
def UnarySignature.task_partition (result : Tensor) (index_step : Nat) : Nat :=
  TaskPartition.for_result result.strider.shape index_step

/-- A `Map` operation descriptor: label, body expression, index step,
encoded-unit flag (unary.rs `Map` impls; the `INDEX_STEP = 1` and
`MAP_ENCODED = false` defaults are modelled from the spec). -/
structure MapDescr where
  label : String
  body : String
  index_step : Nat
  map_encoded : Bool
deriving DecidableEq

/-- The `Identity` map (unary.rs, lines 100-105). -/
def Identity.descr : MapDescr :=
  ⟨"Identity", "let value_result = value_operand;", 1, false⟩

/-- The `ElementwiseNegate` map (unary.rs, lines 113-118). -/
def ElementwiseNegate.descr : MapDescr :=
  ⟨"ElementwiseNegate", "let value_result = -value_operand;", 1, false⟩

/-- The `ElementwiseBoolNot` map (unary.rs, lines 127-134): packed, body
`~value_operand`, `INDEX_STEP = <bool as Encode>::NUM_PACKED`. -/
def ElementwiseBoolNot.descr : MapDescr :=
  ⟨"ElementwiseBoolNot", "let value_result = ~value_operand;", boolNumPacked, true⟩

/-!  Indexing semantics.  A flat invocation index is decomposed into the
row-major multi-index of the op shape, and each tensor's strider maps that
multi-index to a linear buffer position.  Modelled from the spec (§4.2, §4.4);
the kernel program itself is outside src. -/

/-- Row-major decomposition of a flat index by a shape. -/
def unflattenIdx : List Nat → Nat → List Nat
  | [], _ => []
  | _ :: rest, n => n / rest.prod :: unflattenIdx rest (n % rest.prod)

/-- The strider's affine map: `offset + Σ idx[k] * strides[k]`. -/
def Strider.position (s : Strider) (idx : List Nat) : Int :=
  (s.offset : Int) + (List.zipWith (fun (i : Nat) (st : Int) => (i : Int) * st) idx s.strides).sum

/-- Read the buffer at a linear position; out-of-range reads are totalized
to 0 (the GPU model gives no guarantee there). -/
def Tensor.readAt (t : Tensor) (p : Int) : Int :=
  if 0 ≤ p then t.data.getD p.toNat 0 else 0

/-- The logical element of `t` at flat (row-major) index `i`. -/
def Tensor.elemAt (t : Tensor) (i : Nat) : Int :=
  t.readAt (t.strider.position (unflattenIdx t.strider.shape i))

/-- Modelled from the spec: the GPU device handle — only its fresh-buffer
counter matters to this model; `bufferId`s below `counter` are in use. -/
structure Gpu where
  counter : Nat
deriving DecidableEq

/-- Modelled from the spec: `Tensor::allocate(gpu, shape)` (outside src) — a
fresh contiguous tensor over a newly allocated (uninitialized) buffer. -/
def Tensor.allocate (g : Gpu) (shape : List Nat) (elem : ElementType) :
    Tensor × Gpu :=
  (⟨⟨shape, contiguous_strides shape, 0⟩, elem, g.counter,
    List.replicate shape.prod 0⟩, ⟨g.counter + 1⟩)

/-- Modelled from the spec (§4.4): the data an elementwise (index step 1)
unary map kernel writes into the freshly allocated contiguous result buffer:
for each invocation `i` of the task partition, the body applied to the
operand's element at the corresponding index. -/
def mapUnaryData (f : Int → Int) (t : Tensor) : List Int :=
  (List.range t.numel).map (fun i => f (t.elemAt i))

/-- The result tensor produced by a successful elementwise unary dispatch on
device `g`: the freshly allocated contiguous tensor, fully written. -/
def runUnaryMap (g : Gpu) (R : ElementType) (f : Int → Int) (t : Tensor) : Tensor :=
  ⟨⟨t.strider.shape, contiguous_strides t.strider.shape, 0⟩, R, g.counter,
    mapUnaryData f t⟩

/-- `Tensor::map_unary_elementwise` (unary.rs, lines 85-98): allocate the
result with the operand's shape, run the kernel (which validates via
`build_bind_group` before dispatching), and return the result only on
success. `dispatch_error` is the external GPU runtime's outcome (`None`
means the dispatch executed successfully); the kernel body is the scalar
function `f`. -/
def map_unary_elementwise (g : Gpu) (R : ElementType) (f : Int → Int)
    (t : Tensor) (dispatch_error : Option KernelError) :
    Except KernelError (Tensor × Gpu) :=
  let alloc := Tensor.allocate g t.strider.shape R
  let builder := KernelBindingBuilder.new
    (UnarySignature.DECLARATION R t.elem) t.strider.shape.length
  match UnarySignature.build_bind_group alloc.1 t builder with
  | .error e => .error e
  | .ok _ =>
    match dispatch_error with
    | some e => .error e
    | none => .ok (runUnaryMap g R f t, alloc.2)

/-- `Tensor::id` (unary.rs, lines 107-111): the `Identity` map, body
`let value_result = value_operand;`. -/
def Tensor.id (g : Gpu) (t : Tensor) (dispatch_error : Option KernelError) :
    Except KernelError (Tensor × Gpu) :=
  map_unary_elementwise g t.elem (fun v => v) t dispatch_error

/-- `Tensor::neg` (unary.rs, lines 120-125): the `ElementwiseNegate` map,
body `let value_result = -value_operand;`, over integer-modelled numbers. -/
def Tensor.neg (g : Gpu) (t : Tensor) (dispatch_error : Option KernelError) :
    Except KernelError (Tensor × Gpu) :=
  map_unary_elementwise g t.elem (fun v => -v) t dispatch_error

/-- Value equality of tensors: same shape and equal logical elements at every
valid flat index (buffer identity and layout may differ). -/
def tensorValueEq (a b : Tensor) : Prop :=
  a.strider.shape = b.strider.shape ∧ ∀ i < a.numel, a.elemAt i = b.elemAt i

instance (a b : Tensor) : Decidable (tensorValueEq a b) := by
  unfold tensorValueEq; infer_instance

/-!  Packed boolean tensors.  `bool` is a packed element type: `NUM_PACKED`
logical flags share one physical 32-bit word (spec §3, §4.4).  The
`ElementwiseBoolNot` map is encoded (`MAP_ENCODED = true`): one invocation of
the task partition complements one whole word with `~value_operand`. -/

/-- Modelled from the spec: a boolean tensor in canonical packed layout —
shape plus the list of 32-bit encoded words over a fresh buffer. -/
structure BoolTensor where
  shape : List Nat
  words : List Nat
  bufferId : Nat
deriving DecidableEq

def BoolTensor.numel (t : BoolTensor) : Nat := t.shape.prod

/-- Number of encoded words covering the tensor: the task partition of the
packed map. -/
def BoolTensor.numWords (t : BoolTensor) : Nat :=
  TaskPartition.for_result t.shape boolNumPacked

/-- The logical boolean element at flat index `i`: bit `i mod 32` of word
`i / 32` (missing words read as 0). -/
def BoolTensor.elemAt (t : BoolTensor) (i : Nat) : Bool :=
  Nat.testBit (t.words.getD (i / boolNumPacked) 0) (i % boolNumPacked)

/-- The WGSL `~` operator on one packed 32-bit word: bitwise complement. -/
def notWord (w : Nat) : Nat := w ^^^ (2 ^ boolNumPacked - 1)

/-- `Tensor::not` (unary.rs, lines 136-141) on the packed model: dispatch
`ElementwiseBoolNot` — for each encoded unit `j` of the task partition, write
`~value_operand` of unit `j` into the freshly allocated result. -/
def BoolTensor.not (g : Gpu) (t : BoolTensor) : BoolTensor :=
  ⟨t.shape, (List.range t.numWords).map (fun j => notWord (t.words.getD j 0)),
    g.counter⟩

/-- Value equality of boolean tensors: same shape and equal logical elements
at every valid flat index. -/
def boolTensorValueEq (a b : BoolTensor) : Prop :=
  a.shape = b.shape ∧ ∀ i < a.numel, a.elemAt i = b.elemAt i

instance (a b : BoolTensor) : Decidable (boolTensorValueEq a b) := by
  unfold boolTensorValueEq; infer_instance

/-- Run a list of builder-transforming registration calls in order,
short-circuiting on the first error — the semantics of a chain of Rust `?`
operators. -/
def foldStepsExcept
    (steps : List (KernelBindingBuilder → Except KernelError KernelBindingBuilder))
    (b : KernelBindingBuilder) : Except KernelError KernelBindingBuilder :=
  match steps with
  | [] => .ok b
  | s :: rest =>
    match s b with
    | .error e => .error e
    | .ok b' => foldStepsExcept rest b'

/-- The eight registration calls of `UnarySignature::build_bind_group`, in
source order (unary.rs, lines 57-70). -/
def unarySteps (result operand : Tensor) :
    List (KernelBindingBuilder → Except KernelError KernelBindingBuilder) :=
  [fun b => b.add_binding "result" result,
   fun b => b.add_binding "operand" operand,
   fun b => b.add_parameter "op_strides"
     (ParamValue.shaped (contiguous_strides result.strider.shape)),
   fun b => b.add_parameter "op_shape"
     (ParamValue.shaped (result.strider.shape.map Int.ofNat)),
   fun b => b.add_parameter "result_offset" (ParamValue.int result.strider.offset),
   fun b => b.add_parameter "result_strides" (ParamValue.shaped result.strider.strides),
   fun b => b.add_parameter "operand_offset" (ParamValue.int operand.strider.offset),
   fun b => b.add_parameter "operand_strides" (ParamValue.shaped operand.strider.strides)]


/-- Fixtures for concrete evaluation: small tensors over `i32`, with
distinct buffer ids. -/
def wTensorA : Tensor := ⟨⟨[2, 3], [3, 1], 0⟩, i32Elem, 0, [1, 2, 3, 4, 5, 6]⟩

/-- Same metadata as `wTensorA`, different element contents. -/
def wTensorA2 : Tensor := ⟨⟨[2, 3], [3, 1], 0⟩, i32Elem, 0, [9, 9, 9, 9, 9, 9]⟩

def wTensorB : Tensor := ⟨⟨[2, 3], [3, 1], 0⟩, i32Elem, 1, List.replicate 6 0⟩

/-- Same metadata as `wTensorB`, different element contents. -/
def wTensorB2 : Tensor := ⟨⟨[2, 3], [3, 1], 0⟩, i32Elem, 1, [7, 7, 7, 7, 7, 7]⟩

/-- A fresh builder for the unary `i32 → i32` declaration at `D = 2`. -/
def wBuilder2 : KernelBindingBuilder :=
  KernelBindingBuilder.new (UnarySignature.DECLARATION i32Elem i32Elem) 2

/-- A builder over an empty declaration: every registration fails. -/
def wEmptyBuilder : KernelBindingBuilder := ⟨⟨[], []⟩, 1, [], []⟩

def wNegOperand : Tensor := ⟨⟨[2], [1], 0⟩, i32Elem, 0, [5, -7]⟩

/-- `runUnaryMap ⟨1⟩ i32Elem (fun v => -v) wNegOperand`, written out. -/
def wNegResult : Tensor := ⟨⟨[2], [1], 0⟩, i32Elem, 1, [-5, 7]⟩

/-- The second negation of `wNegOperand`. -/
def wNegR2 : Tensor := ⟨⟨[2], [1], 0⟩, i32Elem, 2, [5, -7]⟩

def wIdOperand : Tensor := ⟨⟨[3], [1], 0⟩, i32Elem, 0, [4, 5, 6]⟩

/-- The first identity image of `wIdOperand`. -/
def wIdR : Tensor := ⟨⟨[3], [1], 0⟩, i32Elem, 1, [4, 5, 6]⟩

/-- The second identity image. -/
def wIdR2 : Tensor := ⟨⟨[3], [1], 0⟩, i32Elem, 2, [4, 5, 6]⟩

/-!  Helper lemmas. -/

lemma contiguous_strides_length (s : List Nat) :
    (contiguous_strides s).length = s.length := by
  induction s with
  | nil => rfl
  | cons a rest ih => simp [contiguous_strides, ih]

lemma contiguous_strides_get? (s : List Nat) (k : Nat) (hk : k < s.length) :
    (contiguous_strides s).get? k = some (((s.drop (k + 1)).prod : Nat) : Int) := by
  induction s generalizing k with
  | nil => simp at hk
  | cons a rest ih =>
    cases k with
    | zero => simp [contiguous_strides]
    | succ k =>
      simp only [contiguous_strides, List.get?, List.drop]
      exact ih k (by simpa using hk)

lemma ceilDiv_cover (n s : Nat) (hs : 0 < s) : n ≤ ((n + s - 1) / s) * s := by
  have h := (Nat.div_le_iff_le_mul_add_pred hs (a := n + s - 1)).mp (le_refl _)
  rw [Nat.mul_comm]
  omega

lemma ceilDiv_least (n s k : Nat) (hs : 0 < s) (h : n ≤ k * s) :
    (n + s - 1) / s ≤ k := by
  rw [Nat.mul_comm] at h
  rw [Nat.div_le_iff_le_mul_add_pred hs]
  omega

lemma contig_position_sum (shape : List Nat) :
    ∀ i < shape.prod,
      (List.zipWith (fun (a : Nat) (st : Int) => (a : Int) * st)
        (unflattenIdx shape i) (contiguous_strides shape)).sum = (i : Int) := by
  induction shape with
  | nil =>
    intro i hi
    simp only [List.prod_nil, Nat.lt_one_iff] at hi
    subst hi
    simp [unflattenIdx, contiguous_strides]
  | cons a rest ih =>
    intro i hi
    rcases Nat.eq_zero_or_pos rest.prod with h0 | hpos
    · rw [List.prod_cons, h0, Nat.mul_zero] at hi
      exact absurd hi (Nat.not_lt_zero i)
    · have hmod : i % rest.prod < rest.prod := Nat.mod_lt i hpos
      simp only [unflattenIdx, contiguous_strides, List.zipWith_cons_cons,
        List.sum_cons, ih (i % rest.prod) hmod]
      have hdm := Nat.div_add_mod i rest.prod
      push_cast
      nlinarith [hdm]

lemma position_contiguous (shape : List Nat) (i : Nat) (hi : i < shape.prod) :
    Strider.position ⟨shape, contiguous_strides shape, 0⟩ (unflattenIdx shape i)
      = (i : Int) := by
  simp [Strider.position, contig_position_sum shape i hi]

lemma mapUnaryData_length (f : Int → Int) (t : Tensor) :
    (mapUnaryData f t).length = t.numel := by
  simp [mapUnaryData]

lemma runUnaryMap_shape (g : Gpu) (R : ElementType) (f : Int → Int) (t : Tensor) :
    (runUnaryMap g R f t).strider.shape = t.strider.shape := rfl

lemma runUnaryMap_elemAt (g : Gpu) (R : ElementType) (f : Int → Int)
    (t : Tensor) (i : Nat) (hi : i < t.numel) :
    (runUnaryMap g R f t).elemAt i = f (t.elemAt i) := by
  have hpos := position_contiguous t.strider.shape i hi
  have h1 : (runUnaryMap g R f t).elemAt i = (mapUnaryData f t).getD i 0 := by
    simp only [Tensor.elemAt, runUnaryMap, Tensor.readAt, hpos]
    rw [if_pos (Int.ofNat_nonneg i)]
    simp
  rw [h1]
  simp [mapUnaryData, List.getD, List.getElem?_map, List.getElem?_range, hi]

lemma map_unary_ok_inv (g : Gpu) (R : ElementType) (f : Int → Int)
    (t : Tensor) (de : Option KernelError) (p : Tensor × Gpu)
    (h : map_unary_elementwise g R f t de = .ok p) :
    de = none ∧ p = (runUnaryMap g R f t, ⟨g.counter + 1⟩) := by
  rcases hb : UnarySignature.build_bind_group
      (Tensor.allocate g t.strider.shape R).1 t
      (KernelBindingBuilder.new (UnarySignature.DECLARATION R t.elem)
        t.strider.shape.length) with e | b
  · simp [map_unary_elementwise, hb] at h
  · cases de with
    | some e => simp [map_unary_elementwise, hb] at h
    | none =>
      simp only [map_unary_elementwise] at h
      rw [hb] at h
      simp only [Tensor.allocate, Except.ok.injEq] at h
      exact ⟨rfl, h.symm⟩

lemma build_bind_group_ok (R A : ElementType) (r o : Tensor) (dim : Nat)
    (hr : r.elem = R) (ho : o.elem = A) (hbuf : r.bufferId ≠ o.bufferId)
    (h1 : r.strider.shape.length = dim) (h2 : r.strider.strides.length = dim)
    (h3 : o.strider.strides.length = dim) :
    UnarySignature.build_bind_group r o
      (KernelBindingBuilder.new (UnarySignature.DECLARATION R A) dim) =
    .ok ⟨UnarySignature.DECLARATION R A, dim,
      [⟨"result", r.strider, r.elem, AccessMode.readWrite, r.bufferId⟩,
       ⟨"operand", o.strider, o.elem, AccessMode.readOnly, o.bufferId⟩],
      [("op_strides", ParamValue.shaped (contiguous_strides r.strider.shape)),
       ("op_shape", ParamValue.shaped (r.strider.shape.map Int.ofNat)),
       ("result_offset", ParamValue.int r.strider.offset),
       ("result_strides", ParamValue.shaped r.strider.strides),
       ("operand_offset", ParamValue.int o.strider.offset),
       ("operand_strides", ParamValue.shaped o.strider.strides)]⟩ := by
  subst hr ho h1
  simp [UnarySignature.build_bind_group, KernelBindingBuilder.add_binding,
    KernelBindingBuilder.add_parameter, KernelBindingBuilder.new,
    UnarySignature.DECLARATION, KernelBindingDeclaration.read_write,
    KernelBindingDeclaration.read_only, KernelParameterDeclaration.shaped,
    KernelParameterDeclaration.int, List.find?, hbuf,
    contiguous_strides_length, h2, h3, bind, Except.bind, pure, Except.pure]

lemma build_bind_group_eq_foldSteps (result operand : Tensor)
    (b : KernelBindingBuilder) :
    UnarySignature.build_bind_group result operand b
      = foldStepsExcept (unarySteps result operand) b := by
  simp only [UnarySignature.build_bind_group, unarySteps, foldStepsExcept]
  cases b.add_binding "result" result with
  | error e => simp only [Bind.bind, Except.bind]
  | ok b1 =>
  simp only [Bind.bind, Except.bind]
  cases b1.add_binding "operand" operand with
  | error e => simp only [Except.bind]
  | ok b2 =>
  simp only [Except.bind]
  cases b2.add_parameter "op_strides"
      (ParamValue.shaped (contiguous_strides result.strider.shape)) with
  | error e => simp only [Except.bind]
  | ok b3 =>
  simp only [Except.bind]
  cases b3.add_parameter "op_shape"
      (ParamValue.shaped (result.strider.shape.map Int.ofNat)) with
  | error e => simp only [Except.bind]
  | ok b4 =>
  simp only [Except.bind]
  cases b4.add_parameter "result_offset" (ParamValue.int result.strider.offset) with
  | error e => simp only [Except.bind]
  | ok b5 =>
  simp only [Except.bind]
  cases b5.add_parameter "result_strides" (ParamValue.shaped result.strider.strides) with
  | error e => simp only [Except.bind]
  | ok b6 =>
  simp only [Except.bind]
  cases b6.add_parameter "operand_offset" (ParamValue.int operand.strider.offset) with
  | error e => simp only [Except.bind]
  | ok b7 =>
  simp only [Except.bind]
  cases b7.add_parameter "operand_strides" (ParamValue.shaped operand.strider.strides) with
  | error e => simp only [Except.bind]
  | ok b8 => rfl

lemma foldSteps_first_error
    (steps : List (KernelBindingBuilder → Except KernelError KernelBindingBuilder))
    (b0 b' : KernelBindingBuilder) (i : Nat)
    (s : KernelBindingBuilder → Except KernelError KernelBindingBuilder)
    (e : KernelError)
    (hpre : foldStepsExcept (steps.take i) b0 = .ok b')
    (hstep : steps.get? i = some s)
    (herr : s b' = .error e) :
    foldStepsExcept steps b0 = .error e := by
  induction steps generalizing b0 i with
  | nil => simp at hstep
  | cons s0 rest ih =>
    cases i with
    | zero =>
      simp only [List.take_zero, foldStepsExcept] at hpre
      injection hpre with hb
      subst hb
      simp only [List.get?] at hstep
      injection hstep with hs
      subst hs
      simp [foldStepsExcept, herr]
    | succ i =>
      simp only [List.take_succ_cons, foldStepsExcept] at hpre
      simp only [List.get?] at hstep
      cases h0 : s0 b0 with
      | error e0 => rw [h0] at hpre; exact absurd hpre (by simp)
      | ok b1 =>
        rw [h0] at hpre
        simp only [foldStepsExcept, h0]
        exact ih b1 i hpre hstep

lemma foldSteps_no_unknown
    (steps : List (KernelBindingBuilder → Except KernelError KernelBindingBuilder))
    (P : KernelBindingBuilder → Prop)
    (hstep : ∀ s ∈ steps, ∀ b, P b →
      (∀ n, s b ≠ .error (.unknownBinding n)) ∧ ∀ b', s b = .ok b' → P b')
    (b : KernelBindingBuilder) (hb : P b) (n : String) :
    foldStepsExcept steps b ≠ .error (.unknownBinding n) := by
  induction steps generalizing b with
  | nil => simp [foldStepsExcept]
  | cons s rest ih =>
    obtain ⟨hno, hpres⟩ := hstep s (List.mem_cons_self s rest) b hb
    cases h : s b with
    | error e =>
      simp only [foldStepsExcept, h]
      intro hcon
      injection hcon with h2
      exact hno n (h.trans (by rw [h2]))
    | ok b' =>
      simp only [foldStepsExcept, h]
      exact ih (fun s2 hs2 => hstep s2 (List.mem_cons_of_mem _ hs2)) b' (hpres b' h)

lemma add_binding_decl_eq (b : KernelBindingBuilder) (name : String) (t : Tensor)
    (b' : KernelBindingBuilder) (h : b.add_binding name t = .ok b') :
    b'.decl = b.decl ∧ b'.dim = b.dim := by
  unfold KernelBindingBuilder.add_binding at h
  split at h
  · exact absurd h (by simp)
  · split at h
    · split at h
      · exact absurd h (by simp)
      · injection h with h2
        rw [← h2]
        exact ⟨rfl, rfl⟩
    · exact absurd h (by simp)

lemma add_parameter_decl_eq (b : KernelBindingBuilder) (name : String)
    (v : ParamValue) (b' : KernelBindingBuilder)
    (h : b.add_parameter name v = .ok b') :
    b'.decl = b.decl ∧ b'.dim = b.dim := by
  unfold KernelBindingBuilder.add_parameter at h
  split at h
  · exact absurd h (by simp)
  · split at h
    · injection h with h2
      rw [← h2]
      exact ⟨rfl, rfl⟩
    · split at h
      · injection h with h2
        rw [← h2]
        exact ⟨rfl, rfl⟩
      · exact absurd h (by simp)
    · exact absurd h (by simp)

lemma add_binding_no_unknown (b : KernelBindingBuilder) (name : String)
    (t : Tensor)
    (hf : (b.decl.bindings.find? (fun d => d.name == name)).isSome = true)
    (n : String) :
    b.add_binding name t ≠ .error (.unknownBinding n) := by
  unfold KernelBindingBuilder.add_binding
  cases hfind : b.decl.bindings.find? (fun d => d.name == name) with
  | none => rw [hfind] at hf; simp at hf
  | some d =>
    simp only [hfind]
    split_ifs <;> simp

lemma add_parameter_no_unknown (b : KernelBindingBuilder) (name : String)
    (v : ParamValue)
    (hf : (b.decl.parameters.find? (fun d => d.name == name)).isSome = true)
    (n : String) :
    b.add_parameter name v ≠ .error (.unknownBinding n) := by
  unfold KernelBindingBuilder.add_parameter
  cases hfind : b.decl.parameters.find? (fun d => d.name == name) with
  | none => rw [hfind] at hf; simp at hf
  | some d =>
    simp only [hfind]
    cases d.kind <;> cases v <;> simp <;> split_ifs <;> simp

lemma notWord_notWord (w : Nat) : notWord (notWord w) = w :=
  Nat.xor_cancel_right _ _

lemma not_words_getD (g : Gpu) (t : BoolTensor) (j : Nat) (hj : j < t.numWords) :
    (t.not g).words.getD j 0 = notWord (t.words.getD j 0) := by
  simp [BoolTensor.not, List.getD, List.getElem?_map, List.getElem?_range, hj]

/-!  The claims. -/

/-- C1: for every unary dispatch the task partition is the ceiling of the
product of the result tensor's shape dimensions divided by the operation's
index step: it covers the output (`numel ≤ tp * step`), it is the least such
invocation count, for an unpacked operation (step 1) it equals the product
itself, and for an N-element boolean tensor under `not` (index step
`NUM_PACKED`) it equals `ceil(N / NUM_PACKED)` encoded-unit invocations. -/
theorem unary_task_partition_is_ceil (result : Tensor) (step : Nat)
    (hs : 0 < step) :
    result.numel ≤ UnarySignature.task_partition result step * step ∧
    (∀ k : Nat, result.numel ≤ k * step →
      UnarySignature.task_partition result step ≤ k) ∧
    UnarySignature.task_partition result 1 = result.numel ∧
    UnarySignature.task_partition result boolNumPacked
      = (result.numel + boolNumPacked - 1) / boolNumPacked := by
  refine ⟨ceilDiv_cover result.numel step hs,
    fun k hk => ceilDiv_least result.numel step k hs hk, ?_, rfl⟩
  simp [UnarySignature.task_partition, TaskPartition.for_result, Tensor.numel]

/-- Witness for C1 at a concrete `[2,3]`-shaped tensor and index step 32. -/
theorem unary_task_partition_is_ceil_witness :
    wTensorA.numel ≤ UnarySignature.task_partition wTensorA 32 * 32 :=
  (unary_task_partition_is_ceil wTensorA 32 (by decide)).1

/-- C2: if any `add_binding` or `add_parameter` call inside
`UnarySignature::build_bind_group` returns an error — the steps before
position `i` succeed and step `i` fails with `e` — then `build_bind_group`
returns exactly that first error (no further registration happens), and
whenever validation fails this way, `map_unary_elementwise` returns the
validation error irrespective of the dispatch oracle: no dispatch is
issued for that call. -/
theorem build_bind_group_fail_fast (result operand : Tensor)
    (b0 b' : KernelBindingBuilder) (i : Nat)
    (s : KernelBindingBuilder → Except KernelError KernelBindingBuilder)
    (e : KernelError)
    (hpre : foldStepsExcept ((unarySteps result operand).take i) b0 = .ok b')
    (hstep : (unarySteps result operand).get? i = some s)
    (herr : s b' = .error e) :
    UnarySignature.build_bind_group result operand b0 = .error e ∧
    ∀ (g : Gpu) (R : ElementType) (f : Int → Int) (t : Tensor)
      (de : Option KernelError) (e2 : KernelError),
      UnarySignature.build_bind_group (Tensor.allocate g t.strider.shape R).1 t
        (KernelBindingBuilder.new (UnarySignature.DECLARATION R t.elem)
          t.strider.shape.length) = .error e2 →
      map_unary_elementwise g R f t de = .error e2 := by
  constructor
  · rw [build_bind_group_eq_foldSteps]
    exact foldSteps_first_error _ b0 b' i s e hpre hstep herr
  · intro g R f t de e2 hb
    simp only [map_unary_elementwise]
    rw [hb]

/-- Witness for C2: against an empty declaration the very first
`add_binding("result")` fails, and `build_bind_group` returns that error. -/
theorem build_bind_group_fail_fast_witness :
    UnarySignature.build_bind_group wNegOperand wNegOperand wEmptyBuilder
      = .error (.unknownBinding "result") :=
  (build_bind_group_fail_fast wNegOperand wNegOperand wEmptyBuilder
    wEmptyBuilder 0
    (fun b => b.add_binding "result" wNegOperand)
    (.unknownBinding "result") rfl rfl rfl).1

/-- C3: `build_bind_group` is a pure function and its outcome depends only
on the metadata of its arguments — strider (shape, strides, offset), element
type and buffer identity — never on tensor element contents: two calls whose
tensors agree on all metadata but differ in contents register identical
bindings and parameters and return the same result. -/
theorem build_bind_group_metadata_only (r1 r2 o1 o2 : Tensor)
    (b : KernelBindingBuilder)
    (hrs : r1.strider = r2.strider) (hre : r1.elem = r2.elem)
    (hrb : r1.bufferId = r2.bufferId)
    (hos : o1.strider = o2.strider) (hoe : o1.elem = o2.elem)
    (hob : o1.bufferId = o2.bufferId) :
    UnarySignature.build_bind_group r1 o1 b
      = UnarySignature.build_bind_group r2 o2 b := by
  obtain ⟨s1, e1, id1, d1⟩ := r1
  obtain ⟨s2, e2, id2, d2⟩ := r2
  obtain ⟨s3, e3, id3, d3⟩ := o1
  obtain ⟨s4, e4, id4, d4⟩ := o2
  simp only at hrs hre hrb hos hoe hob
  subst hrs hre hrb hos hoe hob
  rfl

/-- Witness for C3: `wTensorA2`/`wTensorB2` differ from `wTensorA`/`wTensorB`
only in element contents; the registered outcome is identical. -/
theorem build_bind_group_metadata_only_witness :
    UnarySignature.build_bind_group wTensorB wTensorA wBuilder2
      = UnarySignature.build_bind_group wTensorB2 wTensorA2 wBuilder2 :=
  build_bind_group_metadata_only wTensorB wTensorB2 wTensorA wTensorA2
    wBuilder2 rfl rfl rfl rfl rfl rfl

/-- C4: on the unary call path (fresh builder over the unary declaration,
matching element types, non-aliasing buffers, consistent dimensionality),
`build_bind_group` succeeds and registers exactly the six parameters in
source order: `op_shape` is the result tensor's shape, `op_strides` the
canonical row-major strides of that shape (with
`strides[k] = product(shape[k+1..D])`), `result_offset`/`result_strides`
the result strider's offset and strides, and
`operand_offset`/`operand_strides` the operand strider's offset and
strides. -/
theorem build_bind_group_registers_parameters (R A : ElementType)
    (r o : Tensor) (dim : Nat)
    (hr : r.elem = R) (ho : o.elem = A) (hbuf : r.bufferId ≠ o.bufferId)
    (h1 : r.strider.shape.length = dim) (h2 : r.strider.strides.length = dim)
    (h3 : o.strider.strides.length = dim) :
    UnarySignature.build_bind_group r o
      (KernelBindingBuilder.new (UnarySignature.DECLARATION R A) dim) =
    .ok ⟨UnarySignature.DECLARATION R A, dim,
      [⟨"result", r.strider, r.elem, AccessMode.readWrite, r.bufferId⟩,
       ⟨"operand", o.strider, o.elem, AccessMode.readOnly, o.bufferId⟩],
      [("op_strides", ParamValue.shaped (contiguous_strides r.strider.shape)),
       ("op_shape", ParamValue.shaped (r.strider.shape.map Int.ofNat)),
       ("result_offset", ParamValue.int r.strider.offset),
       ("result_strides", ParamValue.shaped r.strider.strides),
       ("operand_offset", ParamValue.int o.strider.offset),
       ("operand_strides", ParamValue.shaped o.strider.strides)]⟩ ∧
    ∀ k, k < r.strider.shape.length →
      (contiguous_strides r.strider.shape).get? k
        = some (((r.strider.shape.drop (k + 1)).prod : Nat) : Int) :=
  ⟨build_bind_group_ok R A r o dim hr ho hbuf h1 h2 h3,
   fun k hk => contiguous_strides_get? r.strider.shape k hk⟩

/-- Witness for C4: the concrete `[2,3]` call registers the six parameter
values, with `op_strides = [3, 1]` the canonical strides of `[2, 3]`. -/
theorem build_bind_group_registers_parameters_witness :
    UnarySignature.build_bind_group wTensorB wTensorA
      (KernelBindingBuilder.new
        (UnarySignature.DECLARATION i32Elem i32Elem) 2) =
    .ok ⟨UnarySignature.DECLARATION i32Elem i32Elem, 2,
      [⟨"result", wTensorB.strider, wTensorB.elem, AccessMode.readWrite,
        wTensorB.bufferId⟩,
       ⟨"operand", wTensorA.strider, wTensorA.elem, AccessMode.readOnly,
        wTensorA.bufferId⟩],
      [("op_strides", ParamValue.shaped (contiguous_strides wTensorB.strider.shape)),
       ("op_shape", ParamValue.shaped (wTensorB.strider.shape.map Int.ofNat)),
       ("result_offset", ParamValue.int wTensorB.strider.offset),
       ("result_strides", ParamValue.shaped wTensorB.strider.strides),
       ("operand_offset", ParamValue.int wTensorA.strider.offset),
       ("operand_strides", ParamValue.shaped wTensorA.strider.strides)]⟩ :=
  (build_bind_group_registers_parameters i32Elem i32Elem wTensorB wTensorA 2
    rfl rfl (by decide) rfl rfl rfl).1

/-- C5: on every successful `map_unary_elementwise` call the returned tensor
was freshly allocated with the operand's shape before the dispatch (buffer id
equal to the device's fresh counter, canonical contiguous layout at offset
0), it shares no buffer with the operand (whose buffer id is a live one,
below the counter), and the device counter advances, making the caller the
exclusive owner of the new buffer. -/
theorem map_unary_fresh_result (g : Gpu) (R : ElementType) (f : Int → Int)
    (t : Tensor) (de : Option KernelError) (r : Tensor) (g' : Gpu)
    (hok : map_unary_elementwise g R f t de = .ok (r, g'))
    (hlive : t.bufferId < g.counter) :
    r.strider.shape = t.strider.shape ∧
    r.bufferId = g.counter ∧
    r.bufferId ≠ t.bufferId ∧
    g'.counter = g.counter + 1 ∧
    r.strider.strides = contiguous_strides t.strider.shape ∧
    r.strider.offset = 0 := by
  obtain ⟨-, hp⟩ := map_unary_ok_inv g R f t de (r, g') hok
  have hr : r = runUnaryMap g R f t := congrArg Prod.fst hp
  have hg : g' = (⟨g.counter + 1⟩ : Gpu) := congrArg Prod.snd hp
  subst hr hg
  exact ⟨rfl, rfl, by simp [runUnaryMap]; omega, rfl, rfl, rfl⟩

/-- Witness for C5: the concrete negation run allocates buffer 1 for the
result while the operand lives in buffer 0. -/
theorem map_unary_fresh_result_witness :
    wNegResult.strider.shape = wNegOperand.strider.shape ∧
    wNegResult.bufferId = (⟨1⟩ : Gpu).counter ∧
    wNegResult.bufferId ≠ wNegOperand.bufferId ∧
    (⟨2⟩ : Gpu).counter = (⟨1⟩ : Gpu).counter + 1 ∧
    wNegResult.strider.strides = contiguous_strides wNegOperand.strider.shape ∧
    wNegResult.strider.offset = 0 :=
  map_unary_fresh_result ⟨1⟩ i32Elem (fun v => -v) wNegOperand none
    wNegResult ⟨2⟩ rfl (by decide)

/-- C6: `map_unary_elementwise` returns a result handle only when the
dispatch completed successfully: a successful return forces the dispatch
oracle to be `none` and the returned tensor to be the fully written kernel
result (never a partially written buffer); and whenever the dispatch fails
after successful validation, the call returns that dispatch error instead of
any tensor. -/
theorem map_unary_result_contract (g : Gpu) (R : ElementType) (f : Int → Int)
    (t : Tensor) (de : Option KernelError) (p : Tensor × Gpu)
    (hok : map_unary_elementwise g R f t de = .ok p) :
    de = none ∧
    p = (runUnaryMap g R f t, ⟨g.counter + 1⟩) ∧
    ∀ (e : KernelError) (b' : KernelBindingBuilder),
      UnarySignature.build_bind_group (Tensor.allocate g t.strider.shape R).1 t
        (KernelBindingBuilder.new (UnarySignature.DECLARATION R t.elem)
          t.strider.shape.length) = .ok b' →
      map_unary_elementwise g R f t (some e) = .error e := by
  obtain ⟨hde, hp⟩ := map_unary_ok_inv g R f t de p hok
  refine ⟨hde, hp, fun e b' hb' => ?_⟩
  simp only [map_unary_elementwise]
  rw [hb']

/-- Witness for C6: the concrete successful negation run returns exactly the
fully written result pair. -/
theorem map_unary_result_contract_witness :
    ((wNegResult, (⟨2⟩ : Gpu)) : Tensor × Gpu)
      = (runUnaryMap ⟨1⟩ i32Elem (fun v => -v) wNegOperand, ⟨(⟨1⟩ : Gpu).counter + 1⟩) :=
  (map_unary_result_contract ⟨1⟩ i32Elem (fun v => -v) wNegOperand none
    (wNegResult, ⟨2⟩) rfl).2.1

/-- C7: for every tensor `t`, a successful `id(t)` has the same shape as `t`
and equal element values at every valid index, and a successful `id(id(t))`
is value-equal to `id(t)`. -/
theorem id_preserves_values (g1 g2 : Gpu) (t r r2 : Tensor)
    (de1 de2 : Option KernelError) (g1' g2' : Gpu)
    (h1 : Tensor.id g1 t de1 = .ok (r, g1'))
    (h2 : Tensor.id g2 r de2 = .ok (r2, g2')) :
    r.strider.shape = t.strider.shape ∧
    (∀ i, i < t.numel → r.elemAt i = t.elemAt i) ∧
    tensorValueEq r2 r := by
  obtain ⟨-, hp1⟩ := map_unary_ok_inv g1 t.elem (fun v => v) t de1 (r, g1') h1
  obtain ⟨-, hp2⟩ := map_unary_ok_inv g2 r.elem (fun v => v) r de2 (r2, g2') h2
  have hr : r = runUnaryMap g1 t.elem (fun v => v) t := congrArg Prod.fst hp1
  have hr2 : r2 = runUnaryMap g2 r.elem (fun v => v) r := congrArg Prod.fst hp2
  subst hr2
  subst hr
  exact ⟨rfl, fun i hi => runUnaryMap_elemAt g1 t.elem _ t i hi,
    rfl, fun i hi => runUnaryMap_elemAt g2 _ _ _ i hi⟩

/-- Witness for C7: double identity on a concrete `[3]`-tensor. -/
theorem id_preserves_values_witness : tensorValueEq wIdR2 wIdR :=
  (id_preserves_values ⟨1⟩ ⟨2⟩ wIdOperand wIdR wIdR2 none none ⟨2⟩ ⟨3⟩
    rfl rfl).2.2

/-- C8: for every numeric tensor `t` (numbers modelled as exact integers),
successful `neg(neg(t))` is value-equal to `t` at every valid index. -/
theorem neg_neg_exact (g1 g2 : Gpu) (t r1 r2 : Tensor)
    (de1 de2 : Option KernelError) (g1' g2' : Gpu)
    (h1 : Tensor.neg g1 t de1 = .ok (r1, g1'))
    (h2 : Tensor.neg g2 r1 de2 = .ok (r2, g2')) :
    tensorValueEq r2 t := by
  obtain ⟨-, hp1⟩ := map_unary_ok_inv g1 t.elem (fun v => -v) t de1 (r1, g1') h1
  obtain ⟨-, hp2⟩ := map_unary_ok_inv g2 r1.elem (fun v => -v) r1 de2 (r2, g2') h2
  have hr1 : r1 = runUnaryMap g1 t.elem (fun v => -v) t := congrArg Prod.fst hp1
  have hr2 : r2 = runUnaryMap g2 r1.elem (fun v => -v) r1 := congrArg Prod.fst hp2
  subst hr2
  subst hr1
  refine ⟨rfl, fun i hi => ?_⟩
  rw [runUnaryMap_elemAt g2 (runUnaryMap g1 t.elem (fun v => -v) t).elem
      (fun v => -v) (runUnaryMap g1 t.elem (fun v => -v) t) i hi,
    runUnaryMap_elemAt g1 t.elem (fun v => -v) t i hi]
  exact neg_neg _

/-- Witness for C8: double negation of the concrete tensor `[5, -7]`. -/
theorem neg_neg_exact_witness : tensorValueEq wNegR2 wNegOperand :=
  neg_neg_exact ⟨1⟩ ⟨2⟩ wNegOperand wNegResult wNegR2 none none ⟨2⟩ ⟨3⟩
    rfl rfl

/-- C9: for every boolean tensor `t`, `not(not(t)) == t`, where `not` is the
packed boolean negation operating on encoded units: each of the
`ceil(numel / NUM_PACKED)` invocations complements one whole 32-bit word
(`~value_operand`), and double complement restores every logical element. -/
theorem bool_not_involutive (g1 g2 : Gpu) (t : BoolTensor) :
    boolTensorValueEq ((t.not g1).not g2) t := by
  refine ⟨rfl, fun i hi => ?_⟩
  have hi' : i < t.numel := hi
  have h32 : 0 < boolNumPacked := by decide
  have hw : i / boolNumPacked < t.numWords := by
    have hcov : t.numel ≤ t.numWords * boolNumPacked :=
      ceilDiv_cover t.numel boolNumPacked h32
    exact (Nat.div_lt_iff_lt_mul h32).mpr (lt_of_lt_of_le hi' hcov)
  have hw2 : i / boolNumPacked < (t.not g1).numWords := hw
  show Nat.testBit
      (((t.not g1).not g2).words.getD (i / boolNumPacked) 0) (i % boolNumPacked)
    = Nat.testBit (t.words.getD (i / boolNumPacked) 0) (i % boolNumPacked)
  rw [not_words_getD g2 (t.not g1) (i / boolNumPacked) hw2,
    not_words_getD g1 t (i / boolNumPacked) hw, notWord_notWord]

/-- C10: every binding name used by `build_bind_group` occurs in
`UnarySignature::DECLARATION` with the matching element type and access mode
(`result` read-write of type `R`, `operand` read-only of type `A`), every
parameter name occurs with the matching kind (`op_strides`, `op_shape`,
`result_strides`, `operand_strides` shaped; `result_offset`,
`operand_offset` int); consequently, for any builder over this declaration
the `UnknownBinding` error branch is unreachable on the unary dispatch
path. -/
theorem unary_declaration_covers_names (R A : ElementType) :
    ((UnarySignature.DECLARATION R A).bindings.find?
        (fun d => d.name == "result")
      = some (KernelBindingDeclaration.read_write R "result")) ∧
    ((UnarySignature.DECLARATION R A).bindings.find?
        (fun d => d.name == "operand")
      = some (KernelBindingDeclaration.read_only A "operand")) ∧
    ((UnarySignature.DECLARATION R A).parameters.find?
        (fun d => d.name == "op_strides")
      = some (KernelParameterDeclaration.shaped "op_strides")) ∧
    ((UnarySignature.DECLARATION R A).parameters.find?
        (fun d => d.name == "op_shape")
      = some (KernelParameterDeclaration.shaped "op_shape")) ∧
    ((UnarySignature.DECLARATION R A).parameters.find?
        (fun d => d.name == "result_offset")
      = some (KernelParameterDeclaration.int "result_offset")) ∧
    ((UnarySignature.DECLARATION R A).parameters.find?
        (fun d => d.name == "result_strides")
      = some (KernelParameterDeclaration.shaped "result_strides")) ∧
    ((UnarySignature.DECLARATION R A).parameters.find?
        (fun d => d.name == "operand_offset")
      = some (KernelParameterDeclaration.int "operand_offset")) ∧
    ((UnarySignature.DECLARATION R A).parameters.find?
        (fun d => d.name == "operand_strides")
      = some (KernelParameterDeclaration.shaped "operand_strides")) ∧
    ∀ (r o : Tensor) (b0 : KernelBindingBuilder),
      b0.decl = UnarySignature.DECLARATION R A →
      ∀ n, UnarySignature.build_bind_group r o b0 ≠ .error (.unknownBinding n) := by
  refine ⟨rfl, rfl, rfl, rfl, rfl, rfl, rfl, rfl, ?_⟩
  intro r o b0 hdecl n
  rw [build_bind_group_eq_foldSteps]
  refine foldSteps_no_unknown (unarySteps r o)
    (fun b => b.decl = UnarySignature.DECLARATION R A) ?_ b0 hdecl n
  intro s hs b hb
  simp only [unarySteps, List.mem_cons, List.not_mem_nil, or_false] at hs
  rcases hs with rfl | rfl | rfl | rfl | rfl | rfl | rfl | rfl
  · exact ⟨fun n2 => add_binding_no_unknown b "result" r (by rw [hb]; rfl) n2,
      fun b' h' => ((add_binding_decl_eq b "result" r b' h').1).trans hb⟩
  · exact ⟨fun n2 => add_binding_no_unknown b "operand" o (by rw [hb]; rfl) n2,
      fun b' h' => ((add_binding_decl_eq b "operand" o b' h').1).trans hb⟩
  · exact ⟨fun n2 => add_parameter_no_unknown b "op_strides" _ (by rw [hb]; rfl) n2,
      fun b' h' => ((add_parameter_decl_eq b "op_strides" _ b' h').1).trans hb⟩
  · exact ⟨fun n2 => add_parameter_no_unknown b "op_shape" _ (by rw [hb]; rfl) n2,
      fun b' h' => ((add_parameter_decl_eq b "op_shape" _ b' h').1).trans hb⟩
  · exact ⟨fun n2 => add_parameter_no_unknown b "result_offset" _ (by rw [hb]; rfl) n2,
      fun b' h' => ((add_parameter_decl_eq b "result_offset" _ b' h').1).trans hb⟩
  · exact ⟨fun n2 => add_parameter_no_unknown b "result_strides" _ (by rw [hb]; rfl) n2,
      fun b' h' => ((add_parameter_decl_eq b "result_strides" _ b' h').1).trans hb⟩
  · exact ⟨fun n2 => add_parameter_no_unknown b "operand_offset" _ (by rw [hb]; rfl) n2,
      fun b' h' => ((add_parameter_decl_eq b "operand_offset" _ b' h').1).trans hb⟩
  · exact ⟨fun n2 => add_parameter_no_unknown b "operand_strides" _ (by rw [hb]; rfl) n2,
      fun b' h' => ((add_parameter_decl_eq b "operand_strides" _ b' h').1).trans hb⟩

end WgpuTensors
